import Mathlib

/-!
Shallow embedding of `src/cruzamento-quatro-vias.c` (a pthread simulation of a
four-way intersection shared between ordinary cars and priority ambulances),
together with proofs about it.

The pure parts of the C program (the admission predicate `pode_passar`, the
controller's axis decision and its dynamic window-duration formula) are
translated directly as Lean functions.  The concurrent part is embedded as a
guarded-effect step relation: each lock-protected critical section of a thread
becomes one atomic event, condition-variable waits (which release the lock)
separate critical sections, and each thread carries a program counter recording
where in its cycle it stands.  The C `int` counters of the shared `Cruzamento`
struct are modelled as `Nat` (they are only ever incremented/decremented under
the thread protocol and stay non-negative); the scalar in-intersection counters
`carros_no_cruzamento` / `ambulancias_no_cruzamento` are instrumented per axis
(the C code keeps only their sums, recovered below as derived functions) so
that cross-axis claims are expressible.  The `float`/`double` window arithmetic
is modelled over `ℚ` with the exact constants 1.8 and 2.2; at every demand
value relevant to the claims the truncated result agrees with the C
float computation.
-/

namespace CruzamentoQuatroVias

/-- C: `typedef enum Direcao { NORTE, SUL, LESTE, OESTE, NUM_DIRECOES }`
(the fifth member is only an array-size marker, not a direction). -/
inductive Direcao where
  | NORTE
  | SUL
  | LESTE
  | OESTE
deriving DecidableEq, Fintype, Repr

/-- C: `typedef enum { FLUXO_NS, FLUXO_LO, AMBULANCIA_NS, AMBULANCIA_LO } EstadoFluxo`. -/
inductive EstadoFluxo where
  | FLUXO_NS
  | FLUXO_LO
  | AMBULANCIA_NS
  | AMBULANCIA_LO
deriving DecidableEq, Fintype, Repr

/-- C: `typedef enum { TIPO_CARRO, TIPO_AMBULANCIA } TipoVeiculo`. -/
inductive TipoVeiculo where
  | TIPO_CARRO
  | TIPO_AMBULANCIA
deriving DecidableEq, Fintype, Repr

open Direcao EstadoFluxo TipoVeiculo

/-- The two right-of-way axes: North-South (axis A) and East-West (axis B). -/
inductive Eixo where
  | NS
  | LO
deriving DecidableEq, Fintype, Repr

/-- The axis a direction belongs to ({NORTE, SUL} on NS, {LESTE, OESTE} on LO). -/
def eixo_de : Direcao → Eixo
  | NORTE => .NS
  | SUL => .NS
  | LESTE => .LO
  | OESTE => .LO

/-- The axis encoded in a flow selector. -/
def eixo_do_fluxo : EstadoFluxo → Eixo
  | FLUXO_NS => .NS
  | AMBULANCIA_NS => .NS
  | FLUXO_LO => .LO
  | AMBULANCIA_LO => .LO

/-- C lines 112-126, `int pode_passar(Direcao dir, EstadoFluxo estado, TipoVeiculo tipo)`.
The C function additionally reads the global `cruzamento.modo_emergencia`;
that read is made explicit as the last parameter.  The first C `if` only
returns (0) when the selector is a priority selector and the vehicle is not an
ambulance; otherwise control falls through to the emergency check and then to
the two axis checks, exactly as chained below. -/
def pode_passar (dir : Direcao) (estado : EstadoFluxo) (tipo : TipoVeiculo)
    (modo_emergencia : Bool) : Bool :=
  if (estado = AMBULANCIA_NS ∨ estado = AMBULANCIA_LO) ∧ tipo ≠ TIPO_AMBULANCIA then false
  else if modo_emergencia = true ∧ tipo = TIPO_CARRO then false
  else if (dir = NORTE ∨ dir = SUL) ∧ (estado = FLUXO_NS ∨ estado = AMBULANCIA_NS) then true
  else if (dir = LESTE ∨ dir = OESTE) ∧ (estado = FLUXO_LO ∨ estado = AMBULANCIA_LO) then true
  else false

/-- The same function `pode_passar` with the direction argument kept as the raw
C `int` it is at machine level (`NORTE = 0, SUL = 1, LESTE = 2, OESTE = 3`):
a C enum parameter can carry any `int` value, and the function compares it
only against the four direction constants. -/
def pode_passar_raw (dir : Int) (estado : EstadoFluxo) (tipo : TipoVeiculo)
    (modo_emergencia : Bool) : Bool :=
  if (estado = AMBULANCIA_NS ∨ estado = AMBULANCIA_LO) ∧ tipo ≠ TIPO_AMBULANCIA then false
  else if modo_emergencia = true ∧ tipo = TIPO_CARRO then false
  else if (dir = 0 ∨ dir = 1) ∧ (estado = FLUXO_NS ∨ estado = AMBULANCIA_NS) then true
  else if (dir = 2 ∨ dir = 3) ∧ (estado = FLUXO_LO ∨ estado = AMBULANCIA_LO) then true
  else false

/-- The `int` code of each `Direcao` enumerator in C. -/
def codigo_direcao : Direcao → Int
  | NORTE => 0
  | SUL => 1
  | LESTE => 2
  | OESTE => 3

/-- C line 34: `#define T_MINIMO 5`. -/
def T_MINIMO : Int := 5

/-- C line 35: `#define T_MAXIMO 20`. -/
def T_MAXIMO : Int := 20

/-- C line 38: `#define T_BASE 1.8`, modelled exactly over `ℚ`. -/
def T_BASE : ℚ := 1.8

/-- C line 39: `#define FATOR_CARRO 2.2`, modelled exactly over `ℚ`. -/
def FATOR_CARRO : ℚ := 2.2

/-- The C cast `(int) x` truncates toward zero. -/
def trunc_q (q : ℚ) : Int :=
  if 0 ≤ q then ⌊q⌋ else ⌈q⌉

/-- C lines 373-374: `if(num_carros > 0) tempo_calculado = T_BASE + ((num_carros - 1)
* FATOR_CARRO); else tempo_calculado = T_BASE;`. -/
def tempo_calculado (num_carros : Int) : ℚ :=
  if num_carros > 0 then T_BASE + ((num_carros - 1 : Int) : ℚ) * FATOR_CARRO else T_BASE

/-- C lines 376-380: `tempo_final = (int) tempo_calculado;` followed by the clamp
`if(tempo_final > T_MAXIMO) tempo_final = T_MAXIMO; else if (tempo_final <
T_MINIMO) tempo_final = T_MINIMO;`. -/
def tempo_final (num_carros : Int) : Int :=
  let t : Int := trunc_q (tempo_calculado num_carros)
  if t > T_MAXIMO then T_MAXIMO else if t < T_MINIMO then T_MINIMO else t

/-- C lines 358 and 326: the North-South demand, `esperando[NORTE] + esperando[SUL]`
(instantiated with `carros_esperando` in the normal branch and with
`ambulancias_esperando` in the emergency branch). -/
def demanda_ns (esperando : Direcao → Nat) : Nat :=
  esperando NORTE + esperando SUL

/-- C lines 359 and 327: the East-West demand, `esperando[LESTE] + esperando[OESTE]`. -/
def demanda_lo (esperando : Direcao → Nat) : Nat :=
  esperando LESTE + esperando OESTE

/-- C lines 362-369: the normal branch picks `FLUXO_NS` iff `demanda_ns >= demanda_lo`. -/
def proximo_estado_normal (carros_esperando : Direcao → Nat) : EstadoFluxo :=
  if demanda_ns carros_esperando ≥ demanda_lo carros_esperando then FLUXO_NS else FLUXO_LO

/-- C lines 362-369: `num_carros` is the winning axis's demand. -/
def num_carros_vencedor (carros_esperando : Direcao → Nat) : Nat :=
  if demanda_ns carros_esperando ≥ demanda_lo carros_esperando
  then demanda_ns carros_esperando else demanda_lo carros_esperando

/-- C lines 329-330: the emergency branch picks `AMBULANCIA_NS` iff
`demanda_amb_ns >= demanda_amb_lo`. -/
def proximo_estado_emergencia (ambulancias_esperando : Direcao → Nat) : EstadoFluxo :=
  if demanda_ns ambulancias_esperando ≥ demanda_lo ambulancias_esperando
  then AMBULANCIA_NS else AMBULANCIA_LO

/-! ### The shared state and the step relation

Each lock-protected critical section of the C threads (`carros`, `ambulancia`,
`fluxo_trafego`) is one atomic event.  A `pthread_cond_wait` releases the lock,
so it splits a thread's work into successive critical sections; each thread's
progress through its cycle is recorded by a program counter.  Where the C code
re-checks a condition upon waking and then proceeds while still holding the
lock (the admission wait-loops and the controller's drain loops), the
successful check and the following mutations form a single event, so the
corresponding guard sits on the same atomic step as the effect, exactly as in
the source. -/

/-- C lines 97-107, struct `Cruzamento` (the synchronization fields - the
mutexes, the condition variable and the id counters - have no effect on the
shared traffic state and are represented by the step relation itself).  The
in-intersection counters are instrumented per axis; the C scalars are the sums
`carros_no_cruzamento` / `ambulancias_no_cruzamento` below. -/
structure Cruzamento where
  carros_esperando : Direcao → Nat
  ambulancias_esperando : Direcao → Nat
  carros_cruzando : Eixo → Nat
  ambulancias_cruzando : Eixo → Nat
  modo_emergencia : Bool
  estado_atual : EstadoFluxo

/-- The C field `carros_no_cruzamento`, the number of cars inside the intersection. -/
def Cruzamento.carros_no_cruzamento (c : Cruzamento) : Nat :=
  c.carros_cruzando Eixo.NS + c.carros_cruzando Eixo.LO

/-- The C field `ambulancias_no_cruzamento`. -/
def Cruzamento.ambulancias_no_cruzamento (c : Cruzamento) : Nat :=
  c.ambulancias_cruzando Eixo.NS + c.ambulancias_cruzando Eixo.LO

/-- Pointwise increment of a counter array (C `++` on one cell). -/
def incrementa {α : Type} [DecidableEq α] (f : α → Nat) (a : α) : α → Nat :=
  Function.update f a (f a + 1)

/-- Pointwise decrement of a counter array (C `--` on one cell). -/
def decrementa {α : Type} [DecidableEq α] (f : α → Nat) (a : α) : α → Nat :=
  Function.update f a (f a - 1)

/-- Program counter of a car thread (C lines 154-198): about to enqueue,
inside the admission wait-loop, or inside the intersection. -/
inductive CarroPC where
  | aproximando
  | esperando
  | cruzando
deriving DecidableEq, Repr

/-- Program counter of an ambulance thread (C lines 229-284): about to
announce, between the announcement and the enqueue (the `sleep(1)` reaction
grace at line 243), inside the admission wait-loop, or inside the
intersection. -/
inductive AmbulanciaPC where
  | aproximando
  | aguardando_reacao
  | esperando
  | cruzando
deriving DecidableEq, Repr

/-- Program counter of the controller thread `fluxo_trafego` (C lines
308-415): sleeping between cycles, draining cars in the normal branch,
draining cars in the emergency branch (the branch is chosen once at line 317
and is not re-read during the drain), or passively waiting for the emergency
to end (lines 341-343). -/
inductive ControladorPC where
  | dormindo
  | drenando_normal
  | drenando_emergencia
  | aguardando_fim_emergencia
deriving DecidableEq, Repr

/-- A configuration of the whole program: the shared struct plus the program
counters of the controller, of `nc` car threads and of `na` ambulance threads. -/
structure Sistema (nc na : Nat) where
  cruz : Cruzamento
  ctrl : ControladorPC
  carro_pc : Fin nc → CarroPC
  ambulancia_pc : Fin na → AmbulanciaPC

/-- The atomic events (one per lock-protected critical section). -/
inductive Evento (nc na : Nat) where
  | carro_enfileira (i : Fin nc)
  | carro_entra (i : Fin nc)
  | carro_sai (i : Fin nc)
  | amb_anuncia (j : Fin na)
  | amb_enfileira (j : Fin na)
  | amb_entra (j : Fin na)
  | amb_sai (j : Fin na)
  | ctrl_escolhe_ramo
  | ctrl_abre_normal
  | ctrl_abre_emergencia
  | ctrl_fim_emergencia
deriving DecidableEq

variable {nc na : Nat}

/-- Enabling condition of each event, read off the C source:
  * `carro_enfileira` / `carro_entra` / `carro_sai`: C lines 165-197; a car
    leaves its wait loop only when `pode_passar(direcao_carro, estado_atual,
    TIPO_CARRO)` holds (line 170), checked under the same lock as the
    counter updates that follow;
  * `amb_anuncia` / `amb_enfileira` / `amb_entra` / `amb_sai`: C lines
    235-277, with the admission check at line 250;
  * `ctrl_escolhe_ramo`: C lines 314-317, the controller acquires the lock
    and reads `modo_emergencia` once;
  * `ctrl_abre_normal`: C lines 352-370, the drain loop has just observed
    `carros_no_cruzamento == 0` under the lock still held when
    `estado_atual` is written;
  * `ctrl_abre_emergencia`: C lines 320-332, same drain, emergency branch;
  * `ctrl_fim_emergencia`: C lines 341-348, the passive wait observes
    `modo_emergencia == false`. -/
def guarda (dc : Fin nc → Direcao) (da : Fin na → Direcao)
    (s : Sistema nc na) : Evento nc na → Prop
  | .carro_enfileira i => s.carro_pc i = .aproximando
  | .carro_entra i => s.carro_pc i = .esperando ∧
      pode_passar (dc i) s.cruz.estado_atual TIPO_CARRO s.cruz.modo_emergencia = true
  | .carro_sai i => s.carro_pc i = .cruzando
  | .amb_anuncia j => s.ambulancia_pc j = .aproximando
  | .amb_enfileira j => s.ambulancia_pc j = .aguardando_reacao
  | .amb_entra j => s.ambulancia_pc j = .esperando ∧
      pode_passar (da j) s.cruz.estado_atual TIPO_AMBULANCIA s.cruz.modo_emergencia = true
  | .amb_sai j => s.ambulancia_pc j = .cruzando
  | .ctrl_escolhe_ramo => s.ctrl = .dormindo
  | .ctrl_abre_normal => s.ctrl = .drenando_normal ∧ s.cruz.carros_no_cruzamento = 0
  | .ctrl_abre_emergencia => s.ctrl = .drenando_emergencia ∧ s.cruz.carros_no_cruzamento = 0
  | .ctrl_fim_emergencia => s.ctrl = .aguardando_fim_emergencia ∧ s.cruz.modo_emergencia = false

/-- State change of each event, read off the C source:
  * `carro_enfileira`: line 167 (`carros_esperando[direcao_carro]++`);
  * `carro_entra`: lines 178-179 (waiting decremented, crossing incremented);
  * `carro_sai`: line 191 (`carros_no_cruzamento--`);
  * `amb_anuncia`: line 236 (`modo_emergencia = true`);
  * `amb_enfileira`: line 247;
  * `amb_entra`: lines 257-258;
  * `amb_sai`: lines 270-271 (`ambulancias_no_cruzamento--; modo_emergencia =
    false` - the flag is cleared unconditionally);
  * `ctrl_escolhe_ramo`: line 317, only the controller's own position changes;
  * `ctrl_abre_normal`: lines 358-370 (`estado_atual` set from the car
    demands; the open-window loop at lines 390-413 only reads state);
  * `ctrl_abre_emergencia`: lines 326-332 (`estado_atual` set from the
    ambulance demands);
  * `ctrl_fim_emergencia`: lines 344-348, only the controller moves on. -/
def efeito (dc : Fin nc → Direcao) (da : Fin na → Direcao)
    (s : Sistema nc na) : Evento nc na → Sistema nc na
  | .carro_enfileira i =>
      { s with
        cruz := { s.cruz with
          carros_esperando := incrementa s.cruz.carros_esperando (dc i) },
        carro_pc := Function.update s.carro_pc i .esperando }
  | .carro_entra i =>
      { s with
        cruz := { s.cruz with
          carros_esperando := decrementa s.cruz.carros_esperando (dc i),
          carros_cruzando := incrementa s.cruz.carros_cruzando (eixo_de (dc i)) },
        carro_pc := Function.update s.carro_pc i .cruzando }
  | .carro_sai i =>
      { s with
        cruz := { s.cruz with
          carros_cruzando := decrementa s.cruz.carros_cruzando (eixo_de (dc i)) },
        carro_pc := Function.update s.carro_pc i .aproximando }
  | .amb_anuncia j =>
      { s with
        cruz := { s.cruz with modo_emergencia := true },
        ambulancia_pc := Function.update s.ambulancia_pc j .aguardando_reacao }
  | .amb_enfileira j =>
      { s with
        cruz := { s.cruz with
          ambulancias_esperando := incrementa s.cruz.ambulancias_esperando (da j) },
        ambulancia_pc := Function.update s.ambulancia_pc j .esperando }
  | .amb_entra j =>
      { s with
        cruz := { s.cruz with
          ambulancias_esperando := decrementa s.cruz.ambulancias_esperando (da j),
          ambulancias_cruzando := incrementa s.cruz.ambulancias_cruzando (eixo_de (da j)) },
        ambulancia_pc := Function.update s.ambulancia_pc j .cruzando }
  | .amb_sai j =>
      { s with
        cruz := { s.cruz with
          ambulancias_cruzando := decrementa s.cruz.ambulancias_cruzando (eixo_de (da j)),
          modo_emergencia := false },
        ambulancia_pc := Function.update s.ambulancia_pc j .aproximando }
  | .ctrl_escolhe_ramo =>
      { s with
        ctrl := if s.cruz.modo_emergencia then .drenando_emergencia else .drenando_normal }
  | .ctrl_abre_normal =>
      { s with
        cruz := { s.cruz with
          estado_atual := proximo_estado_normal s.cruz.carros_esperando },
        ctrl := .dormindo }
  | .ctrl_abre_emergencia =>
      { s with
        cruz := { s.cruz with
          estado_atual := proximo_estado_emergencia s.cruz.ambulancias_esperando },
        ctrl := .aguardando_fim_emergencia }
  | .ctrl_fim_emergencia => { s with ctrl := .dormindo }

/-- One atomic step of the interleaving semantics: the event is enabled and
the target is its effect. -/
def Passo (dc : Fin nc → Direcao) (da : Fin na → Direcao)
    (s : Sistema nc na) (e : Evento nc na) (s' : Sistema nc na) : Prop :=
  guarda dc da s e ∧ s' = efeito dc da s e

/-- C lines 436-445 (`main`): all counters zero, `estado_atual = FLUXO_NS`,
`modo_emergencia = false`, every thread at the top of its cycle. -/
def estado_inicial (nc na : Nat) : Sistema nc na where
  cruz :=
    { carros_esperando := fun _ => 0
      ambulancias_esperando := fun _ => 0
      carros_cruzando := fun _ => 0
      ambulancias_cruzando := fun _ => 0
      modo_emergencia := false
      estado_atual := FLUXO_NS }
  ctrl := .dormindo
  carro_pc := fun _ => .aproximando
  ambulancia_pc := fun _ => .aproximando

/-- The states the program can reach from its initial state, for a given
assignment of directions to the car and ambulance threads. -/
def Alcancavel (dc : Fin nc → Direcao) (da : Fin na → Direcao)
    (s : Sistema nc na) : Prop :=
  Relation.ReflTransGen (fun t t' => ∃ e, Passo dc da t e t') (estado_inicial nc na) s

/-! ### Concrete scenarios

Scenario A (one car from North, one ambulance from North): the car crosses,
then the ambulance announces; `modo_emergencia` becomes true while the car is
still inside the intersection.

Scenario B (one car from North, two ambulances from North): both ambulances
enter under `FLUXO_NS`; the first one's exit clears `modo_emergencia` while
the second is still crossing, so the car is admitted next to an ambulance.

Scenario C (no cars, ambulances from North and East): the first ambulance is
still crossing on the NS axis when the controller's emergency branch - whose
drain loop waits only for `carros_no_cruzamento == 0` - switches to
`AMBULANCIA_LO`, and the second ambulance enters on the other axis. -/

/-- Directions of the single car thread of scenarios A and B. -/
def dcA : Fin 1 → Direcao := fun _ => NORTE

/-- Direction of the single ambulance thread of scenario A. -/
def daA : Fin 1 → Direcao := fun _ => NORTE

/-- Scenario A after `carros_esperando[NORTE]++` (C line 167). -/
def sA1 : Sistema 1 1 := efeito dcA daA (estado_inicial 1 1) (.carro_enfileira 0)

/-- Scenario A after the car enters (admitted at once: `FLUXO_NS`, no emergency). -/
def sA2 : Sistema 1 1 := efeito dcA daA sA1 (.carro_entra 0)

/-- Scenario A after the ambulance announces (C line 236) while the car crosses. -/
def sA3 : Sistema 1 1 := efeito dcA daA sA2 (.amb_anuncia 0)

/-- Directions of the two ambulance threads of scenario B. -/
def daB : Fin 2 → Direcao := fun _ => NORTE

/-- Scenario B, ambulance 0 announces. -/
def sB1 : Sistema 1 2 := efeito dcA daB (estado_inicial 1 2) (.amb_anuncia 0)

/-- Scenario B, ambulance 0 enqueues after the reaction grace. -/
def sB2 : Sistema 1 2 := efeito dcA daB sB1 (.amb_enfileira 0)

/-- Scenario B, ambulance 0 enters (`pode_passar` holds: NS direction under
`FLUXO_NS`, ambulances are not barred by the emergency flag). -/
def sB3 : Sistema 1 2 := efeito dcA daB sB2 (.amb_entra 0)

/-- Scenario B, ambulance 1 announces. -/
def sB4 : Sistema 1 2 := efeito dcA daB sB3 (.amb_anuncia 1)

/-- Scenario B, ambulance 1 enqueues. -/
def sB5 : Sistema 1 2 := efeito dcA daB sB4 (.amb_enfileira 1)

/-- Scenario B, ambulance 1 enters; two ambulances are now crossing. -/
def sB6 : Sistema 1 2 := efeito dcA daB sB5 (.amb_entra 1)

/-- Scenario B, ambulance 0 exits and clears `modo_emergencia` (C lines
270-271) while ambulance 1 is still inside the intersection. -/
def sB7 : Sistema 1 2 := efeito dcA daB sB6 (.amb_sai 0)

/-- Scenario B, the car enqueues. -/
def sB8 : Sistema 1 2 := efeito dcA daB sB7 (.carro_enfileira 0)

/-- Scenario B, the car is admitted (`FLUXO_NS`, `modo_emergencia` already
cleared) while ambulance 1 is still crossing: an ordinary and a priority
vehicle are inside the intersection at the same time. -/
def sB9 : Sistema 1 2 := efeito dcA daB sB8 (.carro_entra 0)

/-- Direction assignment for a system with no car threads. -/
def dirs_vazio : Fin 0 → Direcao := fun i => i.elim0

/-- Directions of the two ambulance threads of scenario C: one from North,
one from East. -/
def daC : Fin 2 → Direcao := fun j => if j = 0 then NORTE else LESTE

/-- Scenario C, ambulance 0 (North) announces. -/
def sC1 : Sistema 0 2 := efeito dirs_vazio daC (estado_inicial 0 2) (.amb_anuncia 0)

/-- Scenario C, ambulance 0 enqueues. -/
def sC2 : Sistema 0 2 := efeito dirs_vazio daC sC1 (.amb_enfileira 0)

/-- Scenario C, ambulance 0 enters on the NS axis under `FLUXO_NS`. -/
def sC3 : Sistema 0 2 := efeito dirs_vazio daC sC2 (.amb_entra 0)

/-- Scenario C, ambulance 1 (East) announces. -/
def sC4 : Sistema 0 2 := efeito dirs_vazio daC sC3 (.amb_anuncia 1)

/-- Scenario C, ambulance 1 enqueues. -/
def sC5 : Sistema 0 2 := efeito dirs_vazio daC sC4 (.amb_enfileira 1)

/-- Scenario C, the controller reads `modo_emergencia = true` and takes the
emergency branch. -/
def sC6 : Sistema 0 2 := efeito dirs_vazio daC sC5 .ctrl_escolhe_ramo

/-- Scenario C, the drain loop sees `carros_no_cruzamento == 0` (it does not
wait for ambulances) and the controller opens `AMBULANCIA_LO` (demand 0 on NS,
1 on LO) while ambulance 0 is still crossing on NS. -/
def sC7 : Sistema 0 2 := efeito dirs_vazio daC sC6 .ctrl_abre_emergencia

/-- Scenario C, ambulance 1 enters on the LO axis: vehicles are now crossing
on both axes at once. -/
def sC8 : Sistema 0 2 := efeito dirs_vazio daC sC7 (.amb_entra 1)

/-- A controller-only system about to open a normal flow (used to exercise
the drain guard). -/
def sE : Sistema 0 0 :=
  { estado_inicial 0 0 with ctrl := ControladorPC.drenando_normal }

/-! ### Helper lemmas -/

/-- On the four defined directions the raw-`int` predicate and the typed one
agree, so `pode_passar_raw` is a faithful view of the same C function. -/
lemma pode_passar_raw_eq_pode_passar (d : Direcao) (e : EstadoFluxo) (t : TipoVeiculo)
    (m : Bool) : pode_passar_raw (codigo_direcao d) e t m = pode_passar d e t m := by
  cases d <;> cases e <;> cases t <;> cases m <;> rfl

/-- The predicate `pode_passar` never admits a car under a priority selector
(first C `if`). -/
lemma pode_passar_carro_estado_normal (d : Direcao) (e : EstadoFluxo) (m : Bool)
    (h : pode_passar d e TIPO_CARRO m = true) : e = FLUXO_NS ∨ e = FLUXO_LO := by
  revert h
  cases d <;> cases e <;> cases m <;> decide

/-- The predicate `pode_passar` rejects every car while the emergency flag is
set (second C `if`). -/
lemma pode_passar_carro_emergencia (d : Direcao) (e : EstadoFluxo) :
    pode_passar d e TIPO_CARRO true = false := by
  cases d <;> cases e <;> rfl

/-- The normal branch always chooses one of the two normal selectors. -/
lemma proximo_estado_normal_e_normal (w : Direcao → Nat) :
    proximo_estado_normal w = FLUXO_NS ∨ proximo_estado_normal w = FLUXO_LO := by
  unfold proximo_estado_normal
  split_ifs <;> simp

/-- Decrementing one axis cannot increase the total number of crossing cars. -/
lemma soma_decrementa_le (f : Eixo → Nat) (a : Eixo) :
    decrementa f a Eixo.NS + decrementa f a Eixo.LO ≤ f Eixo.NS + f Eixo.LO := by
  cases a <;> simp [decrementa, Function.update]

/-! ### The claims -/

/-- C1: the admission predicate returns false for every ordinary vehicle under
a priority selector, and under a normal selector with no emergency it returns
true exactly when the vehicle's direction lies on the axis encoded in the
selector (C lines 112-126). -/
theorem C1_predicado_admissao :
    ∀ (d : Direcao) (e : EstadoFluxo) (t : TipoVeiculo) (m : Bool),
      ((e = AMBULANCIA_NS ∨ e = AMBULANCIA_LO) → pode_passar d e TIPO_CARRO m = false) ∧
      ((e = FLUXO_NS ∨ e = FLUXO_LO) →
        (pode_passar d e t false = true ↔ eixo_de d = eixo_do_fluxo e)) := by
  decide

/-- Witness for C1 at concrete inputs: an ordinary vehicle is refused under
`AMBULANCIA_NS`, and under `FLUXO_NS` with no emergency a car from the East is
admitted exactly when the East axis equals the NS axis (it is not). -/
theorem C1_predicado_admissao_testemunha :
    pode_passar NORTE AMBULANCIA_NS TIPO_CARRO true = false ∧
      (pode_passar LESTE FLUXO_NS TIPO_CARRO false = true ↔
        eixo_de LESTE = eixo_do_fluxo FLUXO_NS) :=
  ⟨(C1_predicado_admissao NORTE AMBULANCIA_NS TIPO_CARRO true).1 (Or.inl rfl),
    (C1_predicado_admissao LESTE FLUXO_NS TIPO_CARRO false).2 (Or.inl rfl)⟩

/-- C2: with the emergency flag set the predicate refuses every ordinary
vehicle, whatever direction and flow selector (C line 120); consequently no
step of the program admits a car while `modo_emergencia` holds. -/
theorem C2_emergencia_barra_carros :
    (∀ (d : Direcao) (e : EstadoFluxo), pode_passar d e TIPO_CARRO true = false) ∧
    (∀ (nc na : Nat) (dc : Fin nc → Direcao) (da : Fin na → Direcao)
      (s s' : Sistema nc na) (i : Fin nc),
      Passo dc da s (.carro_entra i) s' → s.cruz.modo_emergencia = false) := by
  refine ⟨pode_passar_carro_emergencia, ?_⟩
  rintro nc na dc da s s' i ⟨hg, -⟩
  cases hm : s.cruz.modo_emergencia
  · rfl
  · have hp := hg.2
    rw [hm] at hp
    exact absurd hp (by simp [pode_passar_carro_emergencia])

/-- Witness for C2: in scenario A the car's admission step happens from a
state whose emergency flag is indeed false. -/
theorem C2_emergencia_barra_carros_testemunha : sA1.cruz.modo_emergencia = false :=
  C2_emergencia_barra_carros.2 1 1 dcA daA sA1 sA2 0 ⟨⟨rfl, rfl⟩, rfl⟩

/-- C5: whatever the winning axis's demand, the clamped window duration lies
between `T_MINIMO = 5` and `T_MAXIMO = 20` (C lines 373-380). -/
theorem C5_janela_limitada (num_carros : Int) (_h : 0 ≤ num_carros) :
    T_MINIMO ≤ tempo_final num_carros ∧ tempo_final num_carros ≤ T_MAXIMO := by
  unfold tempo_final T_MINIMO T_MAXIMO
  dsimp only
  split_ifs <;> omega

/-- Witness for C5 at demand 7 (raw value 15.0, inside the clamp range). -/
theorem C5_janela_limitada_testemunha :
    (0 : Int) ≤ 7 ∧ T_MINIMO ≤ tempo_final 7 ∧ tempo_final 7 ≤ T_MAXIMO :=
  ⟨by decide, C5_janela_limitada 7 (by decide)⟩

/-- C6: with `T_BASE = 1.8`, `FATOR_CARRO = 2.2`, `T_MINIMO = 5`,
`T_MAXIMO = 20`, demand 1 gives 5 (1.8 clamped up), demand 5 gives 10
(10.6 truncated) and demand 20 gives 20 (43.6 clamped down).  The C program
computes over `float`/`double`; at these three demands the rounding of 1.8
and 2.2 to binary floating point does not move the truncated integer result,
so the exact `ℚ` model returns the same values. -/
theorem C6_formula_dinamica :
    tempo_final 1 = 5 ∧ tempo_final 5 = 10 ∧ tempo_final 20 = 20 := by
  norm_num [tempo_final, tempo_calculado, trunc_q, T_BASE, FATOR_CARRO, T_MINIMO, T_MAXIMO]

/-- C7: in both controller branches the decision is the North-South selector
exactly when the North-South demand is at least the East-West demand (C lines
362 and 329), so an exact tie always resolves to axis A. -/
theorem C7_desempate (carros_esperando ambulancias_esperando : Direcao → Nat) :
    (proximo_estado_normal carros_esperando = FLUXO_NS ↔
      demanda_lo carros_esperando ≤ demanda_ns carros_esperando) ∧
    (proximo_estado_emergencia ambulancias_esperando = AMBULANCIA_NS ↔
      demanda_lo ambulancias_esperando ≤ demanda_ns ambulancias_esperando) ∧
    (demanda_ns carros_esperando = demanda_lo carros_esperando →
      proximo_estado_normal carros_esperando = FLUXO_NS) := by
  unfold proximo_estado_normal proximo_estado_emergencia
  refine ⟨?_, ?_, ?_⟩
  · split_ifs with h
    · simpa using h
    · simp only [ge_iff_le, not_le] at h
      constructor
      · intro hfalso
        exact absurd hfalso (by decide)
      · omega
  · split_ifs with h
    · simpa using h
    · simp only [ge_iff_le, not_le] at h
      constructor
      · intro hfalso
        exact absurd hfalso (by decide)
      · omega
  · intro h
    split_ifs with h2
    · rfl
    · exact absurd (le_of_eq h.symm) h2

/-- Witness for C7: the spec's exact-tie scenario, two waiting cars per axis,
resolves to axis A (`FLUXO_NS`). -/
theorem C7_desempate_testemunha : proximo_estado_normal (fun _ => 1) = FLUXO_NS :=
  (C7_desempate (fun _ => 1) (fun _ => 0)).2.2 rfl

/-- C10: any direction value other than the four enumerators 0-3 falls through
every axis check of `pode_passar` and is refused, whatever the selector, the
vehicle kind and the emergency flag (C lines 123-125). -/
theorem C10_direcao_invalida (dir : Int) (e : EstadoFluxo) (t : TipoVeiculo) (m : Bool)
    (h0 : dir ≠ 0) (h1 : dir ≠ 1) (h2 : dir ≠ 2) (h3 : dir ≠ 3) :
    pode_passar_raw dir e t m = false := by
  unfold pode_passar_raw
  split_ifs with ha hb hc hd
  · rfl
  · rfl
  · rcases hc.1 with rfl | rfl
    · exact absurd rfl h0
    · exact absurd rfl h1
  · rcases hd.1 with rfl | rfl
    · exact absurd rfl h2
    · exact absurd rfl h3
  · rfl

/-- Witness for C10 at the out-of-range value 4 (the C `NUM_DIRECOES` marker). -/
theorem C10_direcao_invalida_testemunha :
    pode_passar_raw 4 FLUXO_NS TIPO_CARRO false = false :=
  C10_direcao_invalida 4 FLUXO_NS TIPO_CARRO false (by decide) (by decide) (by decide)
    (by decide)

/-- Scenario A is executable: enqueue the car, admit it. -/
lemma alcancavel_sA2 : Alcancavel dcA daA sA2 := by
  have h1 : Alcancavel dcA daA sA1 :=
    Relation.ReflTransGen.tail .refl ⟨.carro_enfileira 0, rfl, rfl⟩
  exact Relation.ReflTransGen.tail h1 ⟨.carro_entra 0, ⟨rfl, rfl⟩, rfl⟩

/-- Scenario A reaches the ambulance announcement while the car crosses. -/
lemma alcancavel_sA3 : Alcancavel dcA daA sA3 :=
  Relation.ReflTransGen.tail alcancavel_sA2 ⟨.amb_anuncia 0, rfl, rfl⟩

/-- Scenario B is executable step by step. -/
lemma alcancavel_sB9 : Alcancavel dcA daB sB9 := by
  have h1 : Alcancavel dcA daB sB1 :=
    Relation.ReflTransGen.tail .refl ⟨.amb_anuncia 0, rfl, rfl⟩
  have h2 : Alcancavel dcA daB sB2 :=
    Relation.ReflTransGen.tail h1 ⟨.amb_enfileira 0, rfl, rfl⟩
  have h3 : Alcancavel dcA daB sB3 :=
    Relation.ReflTransGen.tail h2 ⟨.amb_entra 0, ⟨rfl, rfl⟩, rfl⟩
  have h4 : Alcancavel dcA daB sB4 :=
    Relation.ReflTransGen.tail h3 ⟨.amb_anuncia 1, rfl, rfl⟩
  have h5 : Alcancavel dcA daB sB5 :=
    Relation.ReflTransGen.tail h4 ⟨.amb_enfileira 1, rfl, rfl⟩
  have h6 : Alcancavel dcA daB sB6 :=
    Relation.ReflTransGen.tail h5 ⟨.amb_entra 1, ⟨rfl, rfl⟩, rfl⟩
  have h7 : Alcancavel dcA daB sB7 :=
    Relation.ReflTransGen.tail h6 ⟨.amb_sai 0, rfl, rfl⟩
  have h8 : Alcancavel dcA daB sB8 :=
    Relation.ReflTransGen.tail h7 ⟨.carro_enfileira 0, rfl, rfl⟩
  exact Relation.ReflTransGen.tail h8 ⟨.carro_entra 0, ⟨rfl, rfl⟩, rfl⟩

/-- Scenario C is executable step by step. -/
lemma alcancavel_sC8 : Alcancavel dirs_vazio daC sC8 := by
  have h1 : Alcancavel dirs_vazio daC sC1 :=
    Relation.ReflTransGen.tail .refl ⟨.amb_anuncia 0, rfl, rfl⟩
  have h2 : Alcancavel dirs_vazio daC sC2 :=
    Relation.ReflTransGen.tail h1 ⟨.amb_enfileira 0, rfl, rfl⟩
  have h3 : Alcancavel dirs_vazio daC sC3 :=
    Relation.ReflTransGen.tail h2 ⟨.amb_entra 0, ⟨rfl, rfl⟩, rfl⟩
  have h4 : Alcancavel dirs_vazio daC sC4 :=
    Relation.ReflTransGen.tail h3 ⟨.amb_anuncia 1, rfl, rfl⟩
  have h5 : Alcancavel dirs_vazio daC sC5 :=
    Relation.ReflTransGen.tail h4 ⟨.amb_enfileira 1, rfl, rfl⟩
  have h6 : Alcancavel dirs_vazio daC sC6 :=
    Relation.ReflTransGen.tail h5 ⟨.ctrl_escolhe_ramo, rfl, rfl⟩
  have h7 : Alcancavel dirs_vazio daC sC7 :=
    Relation.ReflTransGen.tail h6 ⟨.ctrl_abre_emergencia, ⟨rfl, rfl⟩, rfl⟩
  exact Relation.ReflTransGen.tail h7 ⟨.amb_entra 1, ⟨rfl, rfl⟩, rfl⟩

/-- C3: the claimed mutual-exclusion invariant fails on the code.  Scenario B
reaches a state where an ordinary car and a priority ambulance are inside the
intersection at the same time (the first ambulance's exit cleared
`modo_emergencia` while the second was still crossing), and scenario C reaches
a state with ambulances simultaneously crossing on both axes (the controller's
drain loops wait only for `carros_no_cruzamento == 0`, never for ambulances,
before switching the flow).  The code's own header (lines 5-17) requires that
conflicting directions never share the intersection and that it be empty for
ambulance passage. -/
theorem C3_coexistencia_alcancavel :
    (Alcancavel dcA daB sB9 ∧ 0 < sB9.cruz.carros_no_cruzamento ∧
      0 < sB9.cruz.ambulancias_no_cruzamento) ∧
    (Alcancavel dirs_vazio daC sC8 ∧ 0 < sC8.cruz.ambulancias_cruzando Eixo.NS ∧
      0 < sC8.cruz.ambulancias_cruzando Eixo.LO) :=
  ⟨⟨alcancavel_sB9, by decide, by decide⟩, ⟨alcancavel_sC8, by decide, by decide⟩⟩

/-- C4 as stated is false: scenario A reaches a state where a car is inside
the intersection and `modo_emergencia` is true (the ambulance announced at C
line 236 while the car was still crossing; the code deliberately lets
in-progress cars finish). -/
theorem C4_contraexemplo :
    Alcancavel dcA daA sA3 ∧ 0 < sA3.cruz.carros_no_cruzamento ∧
      sA3.cruz.modo_emergencia = true :=
  ⟨alcancavel_sA3, by decide, rfl⟩

/-- C4 amended: in every reachable state, `carros_no_cruzamento > 0` implies
that `estado_atual` is one of the two normal selectors (the
`modo_emergencia = false` conjunct of the claim does not hold, see
`C4_contraexemplo`).  Cars are only admitted under a normal selector, and both
controller branches set `estado_atual` only when `carros_no_cruzamento = 0`. -/
theorem C4_fluxo_normal_durante_travessia {nc na : Nat} (dc : Fin nc → Direcao)
    (da : Fin na → Direcao) (s : Sistema nc na) (h : Alcancavel dc da s) :
    0 < s.cruz.carros_no_cruzamento →
      s.cruz.estado_atual = FLUXO_NS ∨ s.cruz.estado_atual = FLUXO_LO := by
  induction h with
  | refl =>
    intro hc
    exact absurd hc (lt_irrefl 0)
  | @tail b c _hab hbc ih =>
    obtain ⟨e, hg, rfl⟩ := hbc
    cases e with
    | carro_enfileira i => exact ih
    | carro_entra i => exact fun _ => pode_passar_carro_estado_normal _ _ _ hg.2
    | carro_sai i =>
      intro hc
      apply ih
      have hc' : 0 < decrementa b.cruz.carros_cruzando (eixo_de (dc i)) Eixo.NS +
          decrementa b.cruz.carros_cruzando (eixo_de (dc i)) Eixo.LO := hc
      exact lt_of_lt_of_le hc' (soma_decrementa_le b.cruz.carros_cruzando (eixo_de (dc i)))
    | amb_anuncia j => exact ih
    | amb_enfileira j => exact ih
    | amb_entra j => exact ih
    | amb_sai j => exact ih
    | ctrl_escolhe_ramo => exact ih
    | ctrl_abre_normal => exact fun _ => proximo_estado_normal_e_normal _
    | ctrl_abre_emergencia =>
      intro hc
      have hc' : 0 < b.cruz.carros_no_cruzamento := hc
      rw [hg.2] at hc'
      exact absurd hc' (by decide)
    | ctrl_fim_emergencia => exact ih

/-- Witness for the amended C4 at a concrete reachable state: in scenario A,
with the car inside the intersection, the flow selector is a normal one. -/
theorem C4_fluxo_normal_durante_travessia_testemunha :
    sA2.cruz.estado_atual = FLUXO_NS ∨ sA2.cruz.estado_atual = FLUXO_LO :=
  C4_fluxo_normal_durante_travessia dcA daA sA2 alcancavel_sA2 (by decide)

/-- C8: the critical section in which an ambulance leaves the intersection (C
lines 269-277) sets `modo_emergencia` to false unconditionally - whatever the
waiting counts, the crossing counts or the rest of the state; and these exit
steps plus the two controller openings are the only events that could be
involved, since the exit is the only event that clears the flag. -/
theorem C8_saida_desliga_emergencia {nc na : Nat} (dc : Fin nc → Direcao)
    (da : Fin na → Direcao) (s s' : Sistema nc na) (j : Fin na)
    (h : Passo dc da s (.amb_sai j) s') : s'.cruz.modo_emergencia = false := by
  obtain ⟨-, rfl⟩ := h
  rfl

/-- Witness for C8: in scenario B, ambulance 0's exit step clears the flag even
though ambulance 1 is still inside the intersection. -/
theorem C8_saida_desliga_emergencia_testemunha :
    sB7.cruz.modo_emergencia = false ∧ 0 < sB7.cruz.ambulancias_no_cruzamento :=
  ⟨C8_saida_desliga_emergencia dcA daB sB6 sB7 0 ⟨rfl, rfl⟩, by decide⟩

/-- C9: the controller writes `estado_atual` only in the two opening events,
and each of them is guarded by the drain observation `carros_no_cruzamento =
0`, made under the same lock acquisition that performs the write (C lines
352-370 and 320-332): no step of any execution changes the flow selector
while an ordinary vehicle is inside the intersection. -/
theorem C9_drena_antes_de_trocar :
    (∀ (nc na : Nat) (dc : Fin nc → Direcao) (da : Fin na → Direcao)
      (s s' : Sistema nc na) (e : Evento nc na), Passo dc da s e s' →
      e = .ctrl_abre_normal ∨ e = .ctrl_abre_emergencia →
      s.cruz.carros_no_cruzamento = 0) ∧
    (∀ (nc na : Nat) (dc : Fin nc → Direcao) (da : Fin na → Direcao)
      (s s' : Sistema nc na) (e : Evento nc na), Passo dc da s e s' →
      s'.cruz.estado_atual ≠ s.cruz.estado_atual →
      e = .ctrl_abre_normal ∨ e = .ctrl_abre_emergencia) := by
  constructor
  · rintro nc na dc da s s' e ⟨hg, -⟩ (rfl | rfl)
    · exact hg.2
    · exact hg.2
  · rintro nc na dc da s s' e ⟨hg, rfl⟩ hne
    cases e with
    | carro_enfileira i => exact absurd rfl hne
    | carro_entra i => exact absurd rfl hne
    | carro_sai i => exact absurd rfl hne
    | amb_anuncia j => exact absurd rfl hne
    | amb_enfileira j => exact absurd rfl hne
    | amb_entra j => exact absurd rfl hne
    | amb_sai j => exact absurd rfl hne
    | ctrl_escolhe_ramo => exact absurd rfl hne
    | ctrl_abre_normal => exact Or.inl rfl
    | ctrl_abre_emergencia => exact Or.inr rfl
    | ctrl_fim_emergencia => exact absurd rfl hne

/-- Witness for C9: a concrete normal-branch opening step, taken from a state
whose intersection the drain has emptied. -/
theorem C9_drena_antes_de_trocar_testemunha : sE.cruz.carros_no_cruzamento = 0 :=
  C9_drena_antes_de_trocar.1 0 0 dirs_vazio dirs_vazio sE
    (efeito dirs_vazio dirs_vazio sE .ctrl_abre_normal) .ctrl_abre_normal
    ⟨⟨rfl, rfl⟩, rfl⟩ (Or.inl rfl)

end CruzamentoQuatroVias
